import Mathlib

/-!
Shallow embedding of the voting core of the eco-discord lazy-consensus bot:
the reaction handlers and `cancel_proposal` of `bot/vote.py`, the `grant`
transition of `bot/grant.py`, and the persisted schema declared in
`bot/config/schemas.py`.

The repository modules `bot.utils.proposal_utils`, `bot.utils.db_utils` and
`bot.config.const` are not part of the sources here; wherever their behaviour
decides a property, the corresponding definition carries a doc comment
starting with `Modelled from the spec:` and is written from the spec's
description of the proposal index, the durable store and the constants.
-/

namespace LazyConsensus

/-- `ProposalResult` enumeration used by vote.py / grant.py.
Modelled from the spec: the terminal outcomes are Accepted,
CancelledByProposer and CancelledByThreshold; the constructor names follow
the usages `ProposalResult.ACCEPTED`, `ProposalResult.CANCELLED_BY_PROPOSER`
and `ProposalResult.CANCELLED_BY_REACHING_THRESHOLD` in the sources
(the defining module `bot.config.const` is missing). -/
inductive ProposalResult where
  | ACCEPTED
  | CANCELLED_BY_PROPOSER
  | CANCELLED_BY_REACHING_THRESHOLD
deriving DecidableEq, Repr

/-- A live proposal: a row of the `proposals` table (`Proposals` in
bot/config/schemas.py:25-57) which is also the payload of the in-memory
proposal index.  `author` is a user mention string: vote.py:281 compares it
with `payload.member.mention`.  `closed_at` is the voting deadline read at
vote.py:301; it is not a declared column of `Proposals` — modelled from the
spec (deadline derived from `submittedAt` and `timerSeconds`, set by the
missing proposal-creation code outside this core). -/
structure Proposal where
  id : Nat
  message_id : Nat
  channel_id : Nat
  author : String
  voting_message_id : Nat
  is_grantless : Bool
  mention : String
  amount : Int
  description : String
  timer : Nat
  threshold : Nat
  submitted_at : Nat
  bot_response_message_id : Nat
  closed_at : Nat
deriving DecidableEq, Repr

/-- A recorded objection, as constructed at vote.py:269-272
(`Voters(user_id=payload.user_id, voting_message_id=proposal.voting_message_id)`);
`grant_proposal_id` is the foreign key to the owning proposal, filled by the
ORM relationship (bot/config/schemas.py:69-71). -/
structure Voter where
  user_id : Nat
  voting_message_id : Nat
  grant_proposal_id : Nat
deriving DecidableEq, Repr

/-- A `proposal_history` row.  Modelled from the spec: the archiver copies
all Proposal fields and sets `result` and `closedAt` (the writing methods
`DBUtil.add_proposals_history_item` / `DBUtil.add_history_item` live in the
missing `bot.utils.db_utils`); the columns `result` and `closed_at` are
declared in bot/config/schemas.py:94-97. -/
structure HistoryRow where
  proposal : Proposal
  result : ProposalResult
  closed_at : Nat
deriving DecidableEq, Repr

/-- The shared mutable state the handlers act on: the live proposals
(in-memory index kept in sync with the `proposals` table), the `voters`
table, the append-only `proposal_history` table, and the process-wide
recovery flag read by `db.is_recovery()` (vote.py:228). -/
structure BotState where
  proposals : List Proposal
  voters : List Voter
  history : List HistoryRow
  recovery : Bool
deriving DecidableEq, Repr

/-- External collaborators: the role-eligibility predicate
(`validate_roles`, an external boolean predicate per the spec), whether a
channel resolves (`guild.get_channel` returns None for forum messages,
vote.py:50), whether a message still exists (`get_message` returning None),
whether sending the grant-apply message succeeds (grant.py:47-60), and the
current time. -/
structure Env where
  eligible : Nat → Bool
  channel_exists : Nat → Bool
  message_exists : Nat → Nat → Bool
  grant_send_ok : Bool
  now : Nat

/-- Constants from the missing `bot.config.const`.  Modelled from the spec
and from their usages in vote.py / grant.py: the cancel emoji, the list of
heart emojis to double, the voting channel id, the channels in which the bot
may remove helper reactions, and the reaction emojis added on cancelled /
accepted proposals. -/
structure Config where
  cancel_emoji : String
  heart_emojis : List String
  voting_channel_id : Nat
  helper_channels : List Nat
  reaction_on_cancelled : String
  reaction_on_accepted : String
  emoji_hooray : String

/-- Discord raw-reaction event type (`payload.event_type`). -/
inductive EventType where
  | reactionAdd
  | reactionRemove
deriving DecidableEq, Repr

/-- The fields of `discord.RawReactionActionEvent` the handlers read. -/
structure Payload where
  emoji_name : String
  user_id : Nat
  guild_id : Nat
  channel_id : Nat
  message_id : Nat
  member_mention : String
  event_type : EventType
deriving DecidableEq, Repr

/-- The structured content of the bot's outbound messages (the message
templates themselves live in the missing `bot.config.const`; each
constructor records exactly the dynamic arguments the source passes to
`format`). -/
inductive Msg where
  | votedIncorrectly (voting_message_id : Nat)
  | votingPausedRecovery
  | votedAgainst (author : String) (countdown : Int) (cancel_emoji : String)
      (voting_message_id : Nat)
  | proposerResultResponse (result : ProposalResult) (is_grantless : Bool)
      (author : String)
deriving DecidableEq, Repr

/-- Externally visible side effects emitted by the handlers (Discord calls
and the vote-count log line of vote.py:273-278); the state mutations are
returned separately as the new `BotState`. -/
inductive Eff where
  | removeReaction (channel_id message_id user_id : Nat) (emoji : String)
  | addReaction (channel_id message_id : Nat) (emoji : String)
  | sendDM (user_id : Nat) (msg : Msg)
  | logVoteAdded (user_id total voting_message_id : Nat)
  | replyToOriginal (channel_id message_id : Nat) (msg : Msg)
  | editVotingMessage (voting_message_id : Nat) (result : ProposalResult)
  | sendGrantApplyMessage (mention : String) (amount : Int)
  | sendGrantFailedAlert (mention : String)
deriving DecidableEq, Repr

/-- Modelled from the spec: `lookup(votingMessageRef)` on the proposal
index (`get_proposal` of the missing `bot.utils.proposal_utils`). -/
def get_proposal (s : BotState) (voting_message_id : Nat) : Option Proposal :=
  s.proposals.find? (fun p => p.voting_message_id == voting_message_id)

/-- Whether a live proposal with this voting-message key exists. -/
def proposal_exists (s : BotState) (voting_message_id : Nat) : Bool :=
  (get_proposal s voting_message_id).isSome

/-- Modelled from the spec: `is_relevant_proposal` (missing
`bot.utils.proposal_utils`) — whether the reaction message is a live
lazy-consensus voting message. -/
def is_relevant_proposal (s : BotState) (message_id : Nat) : Bool :=
  proposal_exists s message_id

/-- Modelled from the spec: `get_proposal_initiated_by` (missing
`bot.utils.proposal_utils`) — looks up a live proposal by the original
proposer message or by the bot's reply to it (vote.py:54-56 uses it to
detect a vote on the wrong message). -/
def get_proposal_initiated_by (s : BotState) (message_id : Nat) : Option Proposal :=
  s.proposals.find? (fun p =>
    p.message_id == message_id || p.bot_response_message_id == message_id)

/-- Modelled from the spec: `get_voter(user_id, voting_message_id)`
(missing `bot.utils.proposal_utils`) — the Voter row of this user for this
proposal, if any. -/
def get_voter (s : BotState) (user_id : Nat) (voting_message_id : Nat) :
    Option Voter :=
  s.voters.find? (fun v =>
    v.user_id == user_id && v.voting_message_id == voting_message_id)

/-- Modelled from the spec: `add_voter` (missing `bot.utils.proposal_utils`)
persists and indexes a new Voter row for `proposal`, built as at
vote.py:269-272. -/
def add_voter (s : BotState) (p : Proposal) (user_id : Nat) : BotState :=
  { s with voters :=
      s.voters ++ [⟨user_id, p.voting_message_id, p.id⟩] }

/-- The voters owned by proposal `p`: the ORM relationship
`proposal.voters` (bot/config/schemas.py:50), i.e. the rows whose foreign
key points at `p`. -/
def rel_voters (s : BotState) (p : Proposal) : List Voter :=
  s.voters.filter (fun v => v.grant_proposal_id == p.id)

/-- Modelled from the spec: `remove_voter` (missing
`bot.utils.proposal_utils`) deletes the given Voter row. -/
def remove_voter (s : BotState) (v : Voter) : BotState :=
  { s with voters := s.voters.filter (fun w => w != v) }

/-- Modelled from the spec: `remove_proposal(voting_message_id, db)`
(missing `bot.utils.proposal_utils`) removes the proposal from the index
and the store; deleting the row cascades deletion of its voters
(bot/config/schemas.py:50, cascade="all, delete-orphan").  When no such
proposal exists the source raises ValueError; callers observe that through
`proposal_exists`, and the state is then returned unchanged. -/
def remove_proposal (s : BotState) (voting_message_id : Nat) : BotState :=
  match get_proposal s voting_message_id with
  | some p =>
      { s with
        proposals := s.proposals.filter
          (fun q => q.voting_message_id != voting_message_id),
        voters := s.voters.filter (fun v => v.grant_proposal_id != p.id) }
  | none => s

/-- Modelled from the spec: `DBUtil.add_proposals_history_item` /
`DBUtil.add_history_item` (missing `bot.utils.db_utils`) — appends one
ProposalHistory row copying the proposal's fields and setting `result` and
`closed_at` to now. -/
def add_proposals_history_item (env : Env) (s : BotState) (p : Proposal)
    (result : ProposalResult) : BotState :=
  { s with history := s.history ++ [⟨p, result, env.now⟩] }

/-- Embedding of `is_valid_voting_reaction` (vote.py:32-82).  Returns the
truth value the caller branches on together with the effects performed on
the way: for a reaction-add with the cancel emoji by an eligible member on
the original proposer message (or the bot's reply) of a live proposal, the
helper branch of vote.py:55-71 removes the reaction (in allowed channels)
and DMs the user a link to the real voting message, even though the
function then returns a falsy value. -/
def is_valid_voting_reaction (env : Env) (cfg : Config) (s : BotState)
    (pl : Payload) : Bool × List Eff :=
  if pl.emoji_name != cfg.cancel_emoji then (false, [])
  else if !env.eligible pl.user_id then (false, [])
  else if !env.channel_exists pl.channel_id then (false, [])
  else
    let helper_effs :=
      if pl.event_type == EventType.reactionAdd then
        match get_proposal_initiated_by s pl.message_id with
        | some p =>
            (if cfg.helper_channels.contains pl.channel_id then
              [Eff.removeReaction pl.channel_id pl.message_id pl.user_id
                pl.emoji_name]
            else []) ++
            [Eff.sendDM pl.user_id (Msg.votedIncorrectly p.voting_message_id)]
        | none => []
      else []
    if pl.channel_id != cfg.voting_channel_id then (false, helper_effs)
    else if !is_relevant_proposal s pl.message_id then (false, helper_effs)
    else (true, helper_effs)

/-- Embedding of `cancel_proposal` (vote.py:131-205): notification effects
(reaction on the original message, a reply to it when the voting channel
differs, the edit of the voting message), then the history insert
(vote.py:192) followed by the proposal removal (vote.py:199). -/
def cancel_proposal (env : Env) (cfg : Config) (s : BotState) (p : Proposal)
    (reason : ProposalResult) : BotState × List Eff :=
  let original_exists := env.message_exists p.channel_id p.message_id
  let e1 := if original_exists then
      [Eff.addReaction p.channel_id p.message_id cfg.reaction_on_cancelled]
    else []
  let e2 := if original_exists && (cfg.voting_channel_id != p.channel_id) then
      [Eff.replyToOriginal p.channel_id p.message_id
        (Msg.proposerResultResponse reason p.is_grantless p.author)]
    else []
  let e3 := [Eff.editVotingMessage p.voting_message_id reason]
  let s1 := add_proposals_history_item env s p reason
  let s2 := remove_proposal s1 p.voting_message_id
  (s2, e1 ++ e2 ++ e3)

/-- The outcome of a vote-add event, as distinguished by the control flow
of `on_raw_reaction_add`. -/
inductive AddOutcome where
  | notVoting
  | recoveryRejected
  | duplicateVote
  | cancelledByProposer
  | cancelledByThreshold
  | voteCounted
deriving DecidableEq, Repr

/-- Embedding of `on_raw_reaction_add` (vote.py:208-306): validity check
(with the heart-emoji doubling of vote.py:220-225 on invalid reactions),
the recovery gate (vote.py:227-246), the duplicate-vote check
(vote.py:253-266), the voter insert (vote.py:268-272) with the count log
line (vote.py:273-278), then the author rule (vote.py:280-284), the
threshold rule (vote.py:287-292), or the voter DM with the remaining
countdown (vote.py:293-306). -/
def on_raw_reaction_add (env : Env) (cfg : Config) (s : BotState)
    (pl : Payload) : BotState × List Eff × AddOutcome :=
  let ve := is_valid_voting_reaction env cfg s pl
  if !ve.1 then
    if cfg.heart_emojis.contains pl.emoji_name then
      (s, ve.2 ++ [Eff.addReaction pl.channel_id pl.message_id pl.emoji_name],
        AddOutcome.notVoting)
    else (s, ve.2, AddOutcome.notVoting)
  else if s.recovery then
    (s, ve.2 ++ [Eff.sendDM pl.user_id Msg.votingPausedRecovery,
        Eff.removeReaction pl.channel_id pl.message_id pl.user_id
          pl.emoji_name],
      AddOutcome.recoveryRejected)
  else
    match get_proposal s pl.message_id with
    | none => (s, ve.2, AddOutcome.notVoting)
    | some p =>
      match get_voter s pl.user_id pl.message_id with
      | some _ => (s, ve.2, AddOutcome.duplicateVote)
      | none =>
        let s1 := add_voter s p pl.user_id
        let cnt := (rel_voters s1 p).length
        let e2 := ve.2 ++ [Eff.logVoteAdded pl.user_id cnt p.voting_message_id]
        if p.author == pl.member_mention then
          let cr := cancel_proposal env cfg s1 p
            ProposalResult.CANCELLED_BY_PROPOSER
          (cr.1, e2 ++ cr.2, AddOutcome.cancelledByProposer)
        else if p.threshold ≤ cnt then
          let cr := cancel_proposal env cfg s1 p
            ProposalResult.CANCELLED_BY_REACHING_THRESHOLD
          (cr.1, e2 ++ cr.2, AddOutcome.cancelledByThreshold)
        else
          (s1, e2 ++ [Eff.sendDM pl.user_id
              (Msg.votedAgainst p.author
                ((p.closed_at : Int) - (env.now : Int)) cfg.cancel_emoji
                p.voting_message_id)],
            AddOutcome.voteCounted)

/-- The outcome of a vote-remove event, as distinguished by the control
flow of `on_raw_reaction_remove`. -/
inductive RemoveOutcome where
  | notVoting
  | voterNotFound
  | removed
deriving DecidableEq, Repr

/-- Embedding of `on_raw_reaction_remove` (vote.py:85-128): validity check,
then lookup of the Voter row (warning-logged silent no-op when absent,
vote.py:97-106), then deletion of exactly that row (vote.py:109).  There is
no recovery-gate check and no threshold re-evaluation in this handler. -/
def on_raw_reaction_remove (env : Env) (cfg : Config) (s : BotState)
    (pl : Payload) : BotState × List Eff × RemoveOutcome :=
  let ve := is_valid_voting_reaction env cfg s pl
  if !ve.1 then (s, ve.2, RemoveOutcome.notVoting)
  else
    match get_voter s pl.user_id pl.message_id with
    | none => (s, ve.2, RemoveOutcome.voterNotFound)
    | some v => (remove_voter s v, ve.2, RemoveOutcome.removed)

/-- The outcome of a `grant` call, as distinguished by the control flow of
grant.py. -/
inductive GrantOutcome where
  | notFound
  | grantSendFailed
  | removeFailed
  | granted
deriving DecidableEq, Repr

/-- Embedding of `grant` (grant.py:18-170): proposal lookup (error-logged
no-op when absent, grant.py:20-24), the grant-apply message whose send
failure aborts the whole transition before any store write (grant.py:47-60),
the notification effects, then the history insert (grant.py:137) followed
by the proposal removal whose ValueError is caught and logged, leaving the
already-inserted history row in place (grant.py:145-149). -/
def grant (env : Env) (cfg : Config) (s : BotState)
    (voting_message_id : Nat) : BotState × List Eff × GrantOutcome :=
  match get_proposal s voting_message_id with
  | none => (s, [], GrantOutcome.notFound)
  | some p =>
    if !p.is_grantless && !env.grant_send_ok then
      (s, [Eff.sendGrantFailedAlert p.mention], GrantOutcome.grantSendFailed)
    else
      let original_exists := env.message_exists p.channel_id p.message_id
      let voting_exists :=
        env.message_exists cfg.voting_channel_id p.voting_message_id
      let e1 := if !p.is_grantless then
          [Eff.sendGrantApplyMessage p.mention p.amount]
        else []
      let e2 := (if original_exists then
          [Eff.addReaction p.channel_id p.message_id cfg.reaction_on_accepted]
        else []) ++
        (if voting_exists then
          [Eff.addReaction cfg.voting_channel_id p.voting_message_id
            cfg.reaction_on_accepted,
           Eff.addReaction cfg.voting_channel_id p.voting_message_id
            cfg.emoji_hooray]
        else [])
      let e3 := if original_exists &&
          (cfg.voting_channel_id != p.channel_id) then
          [Eff.replyToOriginal p.channel_id p.message_id
            (Msg.proposerResultResponse ProposalResult.ACCEPTED
              p.is_grantless p.author)]
        else []
      let e4 := if voting_exists then
          [Eff.editVotingMessage p.voting_message_id ProposalResult.ACCEPTED]
        else []
      let s1 := add_proposals_history_item env s p ProposalResult.ACCEPTED
      if proposal_exists s1 voting_message_id then
        (remove_proposal s1 voting_message_id, e1 ++ e2 ++ e3 ++ e4,
          GrantOutcome.granted)
      else
        (s1, e1 ++ e2 ++ e3 ++ e4, GrantOutcome.removeFailed)

/-! ### Schema-level embedding of the `voters` table (bot/config/schemas.py:60-74)

Used to settle the claim about store-level uniqueness: the `Voters` mapping
declares a primary key on `id` and a foreign key
`grant_proposal_id -> proposals.id`; it declares no unique constraint on
(`user_id`, `grant_proposal_id`). -/

/-- A raw row of the `voters` table with its surrogate primary key, exactly
the columns declared in bot/config/schemas.py:66-69. -/
structure VoterTableRow where
  id : Nat
  user_id : Nat
  voting_message_id : Nat
  grant_proposal_id : Nat
deriving DecidableEq, Repr

/-- All constraints the `Voters` schema declares, checked over a table
instance: `id` is a primary key (distinct values), and `grant_proposal_id`
references an existing `proposals.id`.  This is the complete constraint set
of bot/config/schemas.py:60-74 — in particular there is no unique
constraint over (`user_id`, `grant_proposal_id`). -/
def voters_table_ok (proposal_ids : List Nat) (rows : List VoterTableRow) :
    Prop :=
  (rows.map (fun r => r.id)).Nodup ∧
    ∀ r ∈ rows, r.grant_proposal_id ∈ proposal_ids

instance (pids : List Nat) (rows : List VoterTableRow) :
    Decidable (voters_table_ok pids rows) := by
  unfold voters_table_ok; infer_instance

/-- Whether a table instance has at most one row per
(`user_id`, `grant_proposal_id`) pair — the uniqueness the spec attributes
to the schema. -/
def voter_pairs_unique (rows : List VoterTableRow) : Prop :=
  (rows.map (fun r => (r.user_id, r.grant_proposal_id))).Nodup

instance (rows : List VoterTableRow) : Decidable (voter_pairs_unique rows) := by
  unfold voter_pairs_unique; infer_instance

/-- Two rows with distinct primary keys but the same
(`user_id`, `grant_proposal_id`) pair. -/
def dup_voter_rows : List VoterTableRow :=
  [⟨1, 7, 50, 1⟩, ⟨2, 7, 50, 1⟩]

/-! ### Concrete collaborators, configuration and states -/

/-- A concrete environment: every user is role-eligible, every channel and
message resolves, the grant-apply message sends, the clock reads 1000. -/
def env0 : Env :=
  { eligible := fun _ => true
    channel_exists := fun _ => true
    message_exists := fun _ _ => true
    grant_send_ok := true
    now := 1000 }

/-- A concrete configuration: cancel emoji "x", two heart emojis, voting
channel 100, helper-managed channel 5. -/
def cfg0 : Config :=
  { cancel_emoji := "x"
    heart_emojis := ["h1", "h2"]
    voting_channel_id := 100
    helper_channels := [5]
    reaction_on_cancelled := "c"
    reaction_on_accepted := "ok"
    emoji_hooray := "y" }

/-- A concrete live proposal with the given threshold: original message 10
in channel 5, bot reply 11, voting message 50 in the voting channel,
authored by the user whose mention string is "A". -/
def prop0 (threshold : Nat) : Proposal :=
  { id := 1
    message_id := 10
    channel_id := 5
    author := "A"
    voting_message_id := 50
    is_grantless := true
    mention := "M"
    amount := 7
    description := "d"
    timer := 60
    threshold := threshold
    submitted_at := 900
    bot_response_message_id := 11
    closed_at := 2000 }

/-- The mention string of user `u` as the payloads below carry it. -/
def mention_of (u : Nat) : String :=
  toString u

/-- A reaction-add payload of user `u` with the cancel emoji on the voting
message of `prop0` in the voting channel. -/
def vote_payload (u : Nat) : Payload :=
  { emoji_name := "x"
    user_id := u
    guild_id := 1
    channel_id := 100
    message_id := 50
    member_mention := mention_of u
    event_type := EventType.reactionAdd }

/-- The state holding exactly `prop0 threshold` whose recorded voters are
the users of `vs` (in order), with empty history and recovery cleared. -/
def mk_state (threshold : Nat) (vs : List Nat) : BotState :=
  { proposals := [prop0 threshold]
    voters := vs.map (fun u => ⟨u, 50, 1⟩)
    history := []
    recovery := false }

/-- Folding a list of vote-add events over the state, keeping only the
state (the caller-side effects are discarded). -/
def run_votes (env : Env) (cfg : Config) (s : BotState)
    (pls : List Payload) : BotState :=
  pls.foldl (fun s2 pl => (on_raw_reaction_add env cfg s2 pl).1) s

/-- One insertion step of the distinct-voter bookkeeping: append `u` unless
already present. -/
def ins_voter (vs : List Nat) (u : Nat) : List Nat :=
  if vs.contains u then vs else vs ++ [u]

/-! ### The interleaved double-cancellation execution (no per-key lock)

vote.py takes no lock: between the voter insert (vote.py:269) and the store
writes of `cancel_proposal` (vote.py:192/199) the coroutine suspends at
several awaits (`get_message` at vote.py:251 and vote.py:137, the
notification calls of vote.py:181-189).  Starting from threshold 2 with one
recorded voter (count = threshold − 1), two concurrently delivered vote-add
events for users 2 and 3 can interleave as follows, using only those
suspension points:

1. handler H1 (user 2) validates, finds no duplicate, inserts its voter
   (count 2), passes the threshold check and enters `cancel_proposal`,
   suspending at vote.py:137 before any store write;
2. handler H2 (user 3) validates (the proposal is still live), finds no
   duplicate, inserts its voter (count 3), passes the threshold check and
   enters `cancel_proposal`, suspending likewise;
3. H1 resumes: history insert (vote.py:192), proposal removal (vote.py:199);
4. H2 resumes: second history insert, then `remove_proposal` raises
   ValueError (the proposal is gone), which propagates to the generic
   handler of vote.py:307; the second history row stays.

The states below replay exactly these steps with the embedded operations. -/

/-- Threshold 2, one recorded voter (user 4): each incoming vote observes
count = threshold − 1 at entry. -/
def c9_state0 : BotState :=
  mk_state 2 [4]

/-- After H1's voter insert (vote.py:269). -/
def c9_state1 : BotState :=
  add_voter c9_state0 (prop0 2) 2

/-- After H2's voter insert. -/
def c9_state2 : BotState :=
  add_voter c9_state1 (prop0 2) 3

/-- After H1's `cancel_proposal` completes its store writes. -/
def c9_state3 : BotState :=
  (cancel_proposal env0 cfg0 c9_state2 (prop0 2)
    ProposalResult.CANCELLED_BY_REACHING_THRESHOLD).1

/-- After H2's `cancel_proposal` performs its history insert; its
`remove_proposal` then raises (the proposal is already gone), changing
nothing further. -/
def c9_state4 : BotState :=
  (cancel_proposal env0 cfg0 c9_state3 (prop0 2)
    ProposalResult.CANCELLED_BY_REACHING_THRESHOLD).1

/-! ### The interleaved grant/cancel execution for the atomicity claim

grant.py holds no lock and suspends at `get_message` (grant.py:29) after
looking the proposal up.  With threshold 1, a vote-add delivered during
that suspension cancels and archives the proposal; `grant` then resumes
with its captured proposal object, performs the history insert
(grant.py:137), and its `remove_proposal` raises ValueError, which
grant.py:145-149 catches and logs — the transition's delete step failed
after its insert step succeeded, and the inserted history row remains. -/

/-- The state after the concurrent vote-add of user 2 cancelled the
threshold-1 proposal while `grant` was suspended at grant.py:29. -/
def c4_state1 : BotState :=
  (on_raw_reaction_add env0 cfg0 (mk_state 1 []) (vote_payload 2)).1

/-- `grant` resumes: the history insert of grant.py:137 with the captured
proposal; the subsequent `remove_proposal` raises and is caught
(grant.py:145-149), leaving this state final. -/
def c4_state2 : BotState :=
  add_proposals_history_item env0 c4_state1 (prop0 1) ProposalResult.ACCEPTED

/-- A reaction-add payload of the proposal author (mention "A") with the
cancel emoji on the voting message of `prop0`. -/
def author_payload : Payload :=
  { emoji_name := "x"
    user_id := 8
    guild_id := 1
    channel_id := 100
    message_id := 50
    member_mention := "A"
    event_type := EventType.reactionAdd }

/-- A reaction-remove payload of user `u` with the cancel emoji on the
voting message of `prop0`. -/
def remove_payload (u : Nat) : Payload :=
  { emoji_name := "x"
    user_id := u
    guild_id := 1
    channel_id := 100
    message_id := 50
    member_mention := mention_of u
    event_type := EventType.reactionRemove }

/-- The archived terminal state: `prop0 2` cancelled by threshold and
removed from index and store. -/
def archived_state : BotState :=
  remove_proposal
    (add_proposals_history_item env0 (mk_state 2 [4]) (prop0 2)
      ProposalResult.CANCELLED_BY_REACHING_THRESHOLD) 50

/-- An invalid voting reaction that nevertheless triggers helper actions:
the cancel emoji added by an eligible member to the original proposer
message (message 10 of `prop0`, in helper-managed channel 5, which is not
the voting channel). -/
def wrong_payload : Payload :=
  { emoji_name := "x"
    user_id := 9
    guild_id := 1
    channel_id := 5
    message_id := 10
    member_mention := "9"
    event_type := EventType.reactionAdd }

/-- An invalid reaction carrying a heart emoji on the voting message. -/
def heart_payload : Payload :=
  { emoji_name := "h1"
    user_id := 9
    guild_id := 1
    channel_id := 100
    message_id := 50
    member_mention := "9"
    event_type := EventType.reactionAdd }

/-- The environment in which sending the grant-apply message fails
(grant.py:47-60). -/
def env_fail : Env :=
  { env0 with grant_send_ok := false }

/-- A live proposal carrying a grant (`is_grantless = false`). -/
def gprop : Proposal :=
  { prop0 2 with is_grantless := false }

/-- A state holding only the grant-carrying proposal. -/
def gstate : BotState :=
  { proposals := [gprop], voters := [], history := [], recovery := false }

/-! ### Helper lemmas -/

lemma remove_proposal_history (s : BotState) (m : Nat) :
    (remove_proposal s m).history = s.history := by
  unfold remove_proposal; split <;> rfl

lemma remove_proposal_recovery (s : BotState) (m : Nat) :
    (remove_proposal s m).recovery = s.recovery := by
  unfold remove_proposal; split <;> rfl

lemma cancel_proposal_state (env : Env) (cfg : Config) (s : BotState)
    (p : Proposal) (r : ProposalResult) :
    (cancel_proposal env cfg s p r).1 =
      remove_proposal (add_proposals_history_item env s p r)
        p.voting_message_id := rfl

lemma cancel_proposal_history (env : Env) (cfg : Config) (s : BotState)
    (p : Proposal) (r : ProposalResult) :
    (cancel_proposal env cfg s p r).1.history =
      s.history ++ [⟨p, r, env.now⟩] := by
  rw [cancel_proposal_state, remove_proposal_history]
  rfl

lemma proposal_exists_remove (s : BotState) (m : Nat) :
    proposal_exists (remove_proposal s m) m = false := by
  unfold remove_proposal
  cases h : get_proposal s m with
  | none =>
      simpa [proposal_exists] using h
  | some p =>
      have hnone :
          get_proposal
            { s with
              proposals := s.proposals.filter
                (fun q => q.voting_message_id != m),
              voters := s.voters.filter
                (fun v => v.grant_proposal_id != p.id) } m = none := by
        unfold get_proposal
        rw [List.find?_eq_none]
        intro q hq
        have hmem := (List.mem_filter.mp hq).2
        simpa using hmem
      simp [proposal_exists, hnone]

/-- A successful index lookup returns a proposal carrying the looked-up
key. -/
lemma get_proposal_key {s : BotState} {m : Nat} {p : Proposal}
    (h : get_proposal s m = some p) : p.voting_message_id = m := by
  unfold get_proposal at h
  have := List.find?_some h
  simpa using this

/-- A truthy `is_valid_voting_reaction` implies the reacted message is a
live voting message (vote.py:79-82 is the last check before returning
True). -/
lemma valid_implies_relevant (env : Env) (cfg : Config) (s : BotState)
    (pl : Payload)
    (h : (is_valid_voting_reaction env cfg s pl).1 = true) :
    is_relevant_proposal s pl.message_id = true := by
  unfold is_valid_voting_reaction at h
  repeat' split at h <;> simp_all

lemma rel_voters_add_voter (s : BotState) (p : Proposal) (u : Nat) :
    rel_voters (add_voter s p u) p =
      rel_voters s p ++ [⟨u, p.voting_message_id, p.id⟩] := by
  simp [rel_voters, add_voter, List.filter_append]

/-! ### Claim theorems -/

/-- **C1.** On an Active proposal, a vote by a non-author: the count is
evaluated after the voter insert (vote.py:269-288) and equals the previous
count plus one; if it reaches the threshold the proposal is cancelled by
threshold (history row with CANCELLED_BY_REACHING_THRESHOLD, proposal
removed, vote.py:287-292); below the threshold the proposal stays Active
with the new voter recorded, and the caller logs the new count
(vote.py:273-278) and DMs the voter the remaining deadline countdown
(vote.py:293-306). -/
theorem C1_threshold_rule
    (env : Env) (cfg : Config) (s : BotState) (pl : Payload) (p : Proposal)
    (hv : (is_valid_voting_reaction env cfg s pl).1 = true)
    (hr : s.recovery = false)
    (hp : get_proposal s pl.message_id = some p)
    (hnv : get_voter s pl.user_id pl.message_id = none)
    (hna : p.author ≠ pl.member_mention) :
    (rel_voters (add_voter s p pl.user_id) p).length =
      (rel_voters s p).length + 1 ∧
    (p.threshold ≤ (rel_voters (add_voter s p pl.user_id) p).length →
      (on_raw_reaction_add env cfg s pl).2.2 =
        AddOutcome.cancelledByThreshold ∧
      (on_raw_reaction_add env cfg s pl).1.history =
        s.history ++
          [⟨p, ProposalResult.CANCELLED_BY_REACHING_THRESHOLD, env.now⟩] ∧
      proposal_exists (on_raw_reaction_add env cfg s pl).1 pl.message_id =
        false) ∧
    ((rel_voters (add_voter s p pl.user_id) p).length < p.threshold →
      (on_raw_reaction_add env cfg s pl).2.2 = AddOutcome.voteCounted ∧
      (on_raw_reaction_add env cfg s pl).1.proposals = s.proposals ∧
      (on_raw_reaction_add env cfg s pl).1.voters =
        s.voters ++ [⟨pl.user_id, p.voting_message_id, p.id⟩] ∧
      (on_raw_reaction_add env cfg s pl).1.history = s.history ∧
      (on_raw_reaction_add env cfg s pl).2.1 =
        ((is_valid_voting_reaction env cfg s pl).2 ++
          [Eff.logVoteAdded pl.user_id
            (rel_voters (add_voter s p pl.user_id) p).length
            p.voting_message_id]) ++
        [Eff.sendDM pl.user_id
          (Msg.votedAgainst p.author ((p.closed_at : Int) - (env.now : Int))
            cfg.cancel_emoji p.voting_message_id)]) := by
  have hkey := get_proposal_key hp
  have hbeq : (p.author == pl.member_mention) = false := by
    simpa using hna
  refine ⟨by simp [rel_voters_add_voter], ?_, ?_⟩
  · intro hth
    simp only [on_raw_reaction_add, hv, hr, hp, hnv, hbeq, Bool.not_true,
      Bool.false_eq_true, if_false, hth, if_true]
    refine ⟨trivial, ?_, ?_⟩
    · simp [cancel_proposal_history, add_voter]
    · rw [cancel_proposal_state, ← hkey]
      exact proposal_exists_remove _ _
  · intro hlt
    have hth : ¬ p.threshold ≤
        (rel_voters (add_voter s p pl.user_id) p).length := by omega
    simp only [on_raw_reaction_add, hv, hr, hp, hnv, hbeq, Bool.not_true,
      Bool.false_eq_true, if_false, hth, if_true]
    refine ⟨trivial, ?_, ?_, ?_, ?_⟩ <;> simp [add_voter]

/-- Witness for C1: threshold-3 proposal with one prior voter; user 2's
vote brings the count to 2 < 3 and is merely counted, and a second state
with two prior voters where user 2's vote reaches 3 and cancels. -/
theorem C1_witness :
    ((rel_voters (add_voter (mk_state 3 [4]) (prop0 3) 2) (prop0 3)).length
        = (rel_voters (mk_state 3 [4]) (prop0 3)).length + 1 ∧
      (on_raw_reaction_add env0 cfg0 (mk_state 3 [4])
          (vote_payload 2)).2.2 = AddOutcome.voteCounted) ∧
    (on_raw_reaction_add env0 cfg0 (mk_state 3 [4, 5])
        (vote_payload 2)).2.2 = AddOutcome.cancelledByThreshold ∧
    (on_raw_reaction_add env0 cfg0 (mk_state 3 [4, 5])
        (vote_payload 2)).1.history =
      [] ++ [⟨prop0 3, ProposalResult.CANCELLED_BY_REACHING_THRESHOLD,
        env0.now⟩] := by
  have h1 := C1_threshold_rule env0 cfg0 (mk_state 3 [4]) (vote_payload 2)
    (prop0 3) (by decide) (by decide) (by decide) (by decide) (by decide)
  have h2 := C1_threshold_rule env0 cfg0 (mk_state 3 [4, 5])
    (vote_payload 2) (prop0 3) (by decide) (by decide) (by decide)
    (by decide) (by decide)
  exact ⟨⟨h1.1, (h1.2.2 (by decide)).1⟩, (h2.2.1 (by decide)).1,
    (h2.2.1 (by decide)).2.1⟩

/-- **C2.** For every vote-add event on an Active proposal where the voter
equals the proposal's author (vote.py:281 compares the author field with
the member's mention), the proposal transitions to CancelledByProposer
regardless of the vote count: the author check precedes the threshold check
(vote.py:280-292), so even a threshold-reaching author vote yields
CANCELLED_BY_PROPOSER — the history row carries that result and the
proposal is removed. -/
theorem C2_author_vote_cancels_by_proposer
    (env : Env) (cfg : Config) (s : BotState) (pl : Payload) (p : Proposal)
    (hv : (is_valid_voting_reaction env cfg s pl).1 = true)
    (hr : s.recovery = false)
    (hp : get_proposal s pl.message_id = some p)
    (hnv : get_voter s pl.user_id pl.message_id = none)
    (ha : p.author = pl.member_mention) :
    (on_raw_reaction_add env cfg s pl).2.2 = AddOutcome.cancelledByProposer ∧
    (on_raw_reaction_add env cfg s pl).1.history =
      s.history ++ [⟨p, ProposalResult.CANCELLED_BY_PROPOSER, env.now⟩] ∧
    proposal_exists (on_raw_reaction_add env cfg s pl).1 pl.message_id =
      false := by
  have hkey := get_proposal_key hp
  simp only [on_raw_reaction_add, hv, hr, hp, hnv, ha, Bool.not_true,
    Bool.false_eq_true, if_false, beq_self_eq_true, if_true]
  refine ⟨trivial, ?_, ?_⟩
  · simp [cancel_proposal_history, add_voter]
  · rw [cancel_proposal_state, ← hkey]
    exact proposal_exists_remove _ _

/-- Witness for C2: the author's own vote on a threshold-3 proposal with no
prior voters (the author's vote is count 1, far from the threshold, yet it
cancels by proposer; the symmetric threshold-reaching case is covered by
the theorem's absent count hypothesis). -/
theorem C2_witness :
    (on_raw_reaction_add env0 cfg0 (mk_state 3 []) author_payload).2.2 =
      AddOutcome.cancelledByProposer ∧
    (on_raw_reaction_add env0 cfg0 (mk_state 3 []) author_payload).1.history
      = [] ++ [⟨prop0 3, ProposalResult.CANCELLED_BY_PROPOSER, env0.now⟩] ∧
    proposal_exists
      (on_raw_reaction_add env0 cfg0 (mk_state 3 []) author_payload).1 50 =
      false :=
  C2_author_vote_cancels_by_proposer env0 cfg0 (mk_state 3 [])
    author_payload (prop0 3) (by decide) (by decide) (by decide) (by decide)
    (by decide)

/-- **C7.** A successful vote-remove on an Active proposal deletes exactly
the matching Voter row (vote.py:109) and changes nothing else — proposals,
history and the recovery flag are untouched, so no threshold re-evaluation,
cancellation or acceptance can occur; a vote-remove whose Voter row does
not exist is a warning-logged silent no-op (vote.py:97-106). -/
theorem C7_vote_remove_frame
    (env : Env) (cfg : Config) (s : BotState) (pl : Payload)
    (hv : (is_valid_voting_reaction env cfg s pl).1 = true) :
    (∀ v, get_voter s pl.user_id pl.message_id = some v →
      on_raw_reaction_remove env cfg s pl =
        ({ s with voters := s.voters.filter (fun w => w != v) },
          (is_valid_voting_reaction env cfg s pl).2,
          RemoveOutcome.removed)) ∧
    (get_voter s pl.user_id pl.message_id = none →
      on_raw_reaction_remove env cfg s pl =
        (s, (is_valid_voting_reaction env cfg s pl).2,
          RemoveOutcome.voterNotFound)) := by
  constructor
  · intro v hfind
    simp [on_raw_reaction_remove, hv, hfind, remove_voter]
  · intro hfind
    simp [on_raw_reaction_remove, hv, hfind]

/-- Witness for C7: removing user 2's recorded vote deletes exactly that
row and leaves everything else unchanged. -/
theorem C7_witness :
    on_raw_reaction_remove env0 cfg0 (mk_state 3 [2, 3])
        (remove_payload 2) =
      ({ mk_state 3 [2, 3] with
          voters := (mk_state 3 [2, 3]).voters.filter
            (fun w => w != ⟨2, 50, 1⟩) },
        (is_valid_voting_reaction env0 cfg0 (mk_state 3 [2, 3])
          (remove_payload 2)).2,
        RemoveOutcome.removed) :=
  (C7_vote_remove_frame env0 cfg0 (mk_state 3 [2, 3]) (remove_payload 2)
    (by decide)).1 ⟨2, 50, 1⟩ (by decide)

/-- **C5.** Once a proposal is archived (absent from the live index), any
vote-add or vote-remove on its voting-message reference fails the
`is_relevant_proposal` check inside `is_valid_voting_reaction`
(vote.py:78-82) and mutates nothing, and a timer-elapsed `grant` call
returns the not-found no-op of grant.py:20-24 without touching state. -/
theorem C5_terminal_noop
    (env : Env) (cfg : Config) (s : BotState) (pl : Payload) (m : Nat)
    (hm : proposal_exists s m = false)
    (hpl : pl.message_id = m) :
    (on_raw_reaction_add env cfg s pl).1 = s ∧
    (on_raw_reaction_remove env cfg s pl).1 = s ∧
    grant env cfg s m = (s, [], GrantOutcome.notFound) := by
  have hval : (is_valid_voting_reaction env cfg s pl).1 = false := by
    cases h : (is_valid_voting_reaction env cfg s pl).1 with
    | false => rfl
    | true =>
        have := valid_implies_relevant env cfg s pl h
        rw [is_relevant_proposal, hpl, hm] at this
        exact absurd this (by simp)
  have hgp : get_proposal s m = none := by
    cases h : get_proposal s m with
    | none => rfl
    | some p => rw [proposal_exists, h] at hm; exact absurd hm (by simp)
  refine ⟨?_, ?_, ?_⟩
  · simp only [on_raw_reaction_add, hval, Bool.not_false, if_true]
    split <;> rfl
  · simp [on_raw_reaction_remove, hval]
  · simp [grant, hgp]

/-- Witness for C5: in the archived terminal state, a further vote, a
withdrawal and a timer-elapsed grant on key 50 all leave the state
untouched. -/
theorem C5_witness :
    (on_raw_reaction_add env0 cfg0 archived_state (vote_payload 2)).1 =
      archived_state ∧
    (on_raw_reaction_remove env0 cfg0 archived_state (vote_payload 2)).1 =
      archived_state ∧
    grant env0 cfg0 archived_state 50 =
      (archived_state, [], GrantOutcome.notFound) :=
  C5_terminal_noop env0 cfg0 archived_state (vote_payload 2) 50 (by decide)
    (by decide)

lemma valid_ignores_recovery (env : Env) (cfg : Config) (s : BotState)
    (pl : Payload) (b : Bool) :
    is_valid_voting_reaction env cfg { s with recovery := b } pl =
      is_valid_voting_reaction env cfg s pl := rfl

lemma remove_proposal_ignores_recovery (s : BotState) (m : Nat) (b : Bool) :
    remove_proposal { s with recovery := b } m =
      { remove_proposal s m with recovery := b } := by
  unfold remove_proposal
  have h : get_proposal { s with recovery := b } m = get_proposal s m := rfl
  rw [h]
  cases get_proposal s m <;> rfl

lemma remove_ignores_recovery (env : Env) (cfg : Config) (s : BotState)
    (pl : Payload) (b : Bool) :
    on_raw_reaction_remove env cfg { s with recovery := b } pl =
      ({ (on_raw_reaction_remove env cfg s pl).1 with recovery := b },
        (on_raw_reaction_remove env cfg s pl).2) := by
  unfold on_raw_reaction_remove
  rw [valid_ignores_recovery]
  cases hval : (is_valid_voting_reaction env cfg s pl).1 with
  | false => simp [hval]
  | true =>
      simp only [hval, Bool.not_true, Bool.false_eq_true, if_false]
      have hgv : get_voter { s with recovery := b } pl.user_id pl.message_id
          = get_voter s pl.user_id pl.message_id := rfl
      rw [hgv]
      cases get_voter s pl.user_id pl.message_id <;> simp [remove_voter]

lemma grant_ignores_recovery (env : Env) (cfg : Config) (s : BotState)
    (m : Nat) (b : Bool) :
    grant env cfg { s with recovery := b } m =
      ({ (grant env cfg s m).1 with recovery := b },
        (grant env cfg s m).2) := by
  unfold grant
  have hgp : get_proposal { s with recovery := b } m = get_proposal s m := rfl
  rw [hgp]
  cases hp : get_proposal s m with
  | none => rfl
  | some p =>
      by_cases hg : (!p.is_grantless && !env.grant_send_ok) = true
      · simp [hg]
      · simp only [hg, Bool.false_eq_true, if_false]
        have hhist : add_proposals_history_item env { s with recovery := b }
            p ProposalResult.ACCEPTED =
            { add_proposals_history_item env s p ProposalResult.ACCEPTED with
              recovery := b } := rfl
        rw [hhist]
        have hpe : proposal_exists
            { add_proposals_history_item env s p ProposalResult.ACCEPTED with
              recovery := b } m =
            proposal_exists
              (add_proposals_history_item env s p ProposalResult.ACCEPTED)
              m := rfl
        rw [hpe]
        by_cases hex : proposal_exists
            (add_proposals_history_item env s p ProposalResult.ACCEPTED) m
            = true
        · simp [hex, remove_proposal_ignores_recovery]
        · simp [hex]

/-- **C6.** While the recovery flag is set, a valid vote-add is rejected
before any state mutation (vote.py:227-246): the state is returned
unchanged and the only compensation is the DM and the removal of the
recorded reaction; vote-remove (vote.py:85-128) and the timer-elapsed
`grant` (grant.py) never read the flag, so their behaviour is identical
whatever its value. -/
theorem C6_recovery_gate
    (env : Env) (cfg : Config) (s : BotState) (pl : Payload)
    (hv : (is_valid_voting_reaction env cfg s pl).1 = true)
    (hr : s.recovery = true) :
    on_raw_reaction_add env cfg s pl =
      (s, (is_valid_voting_reaction env cfg s pl).2 ++
          [Eff.sendDM pl.user_id Msg.votingPausedRecovery,
           Eff.removeReaction pl.channel_id pl.message_id pl.user_id
             pl.emoji_name],
        AddOutcome.recoveryRejected) ∧
    (∀ (b : Bool) (s2 : BotState) (pl2 : Payload),
      on_raw_reaction_remove env cfg { s2 with recovery := b } pl2 =
        ({ (on_raw_reaction_remove env cfg s2 pl2).1 with recovery := b },
          (on_raw_reaction_remove env cfg s2 pl2).2)) ∧
    (∀ (b : Bool) (s2 : BotState) (m : Nat),
      grant env cfg { s2 with recovery := b } m =
        ({ (grant env cfg s2 m).1 with recovery := b },
          (grant env cfg s2 m).2)) := by
  refine ⟨?_, fun b s2 pl2 => remove_ignores_recovery env cfg s2 pl2 b,
    fun b s2 m => grant_ignores_recovery env cfg s2 m b⟩
  simp [on_raw_reaction_add, hv, hr]

/-- Witness for C6: with recovery set, user 2's valid vote is rejected with
no state change; a withdrawal and a grant behave as with the flag
cleared. -/
theorem C6_witness :
    on_raw_reaction_add env0 cfg0 { mk_state 3 [] with recovery := true }
        (vote_payload 2) =
      ({ mk_state 3 [] with recovery := true },
        (is_valid_voting_reaction env0 cfg0
          { mk_state 3 [] with recovery := true } (vote_payload 2)).2 ++
          [Eff.sendDM 2 Msg.votingPausedRecovery,
           Eff.removeReaction 100 50 2 "x"],
        AddOutcome.recoveryRejected) ∧
    on_raw_reaction_remove env0 cfg0
        { mk_state 3 [2] with recovery := true } (remove_payload 2) =
      ({ (on_raw_reaction_remove env0 cfg0 (mk_state 3 [2])
          (remove_payload 2)).1 with recovery := true },
        (on_raw_reaction_remove env0 cfg0 (mk_state 3 [2])
          (remove_payload 2)).2) ∧
    grant env0 cfg0 { mk_state 3 [] with recovery := true } 50 =
      ({ (grant env0 cfg0 (mk_state 3 []) 50).1 with recovery := true },
        (grant env0 cfg0 (mk_state 3 []) 50).2) := by
  have h := C6_recovery_gate env0 cfg0
    { mk_state 3 [] with recovery := true } (vote_payload 2) (by decide)
    (by decide)
  exact ⟨h.1, h.2.1 true (mk_state 3 [2]) (remove_payload 2),
    h.2.2 true (mk_state 3 []) 50⟩

lemma history_mono_add (env : Env) (cfg : Config) (s : BotState)
    (pl : Payload) :
    ∃ t, (on_raw_reaction_add env cfg s pl).1.history = s.history ++ t := by
  cases hval : (is_valid_voting_reaction env cfg s pl).1 with
  | false =>
      refine ⟨[], ?_⟩
      simp only [on_raw_reaction_add, hval, Bool.not_false, if_true]
      split <;> simp
  | true =>
      by_cases hrec : s.recovery = true
      · exact ⟨[], by simp [on_raw_reaction_add, hval, hrec]⟩
      · have hrec2 : s.recovery = false := by simpa using hrec
        cases hp : get_proposal s pl.message_id with
        | none =>
            exact ⟨[], by simp [on_raw_reaction_add, hval, hrec2, hp]⟩
        | some p =>
            cases hgv : get_voter s pl.user_id pl.message_id with
            | some v =>
                exact ⟨[], by
                  simp [on_raw_reaction_add, hval, hrec2, hp, hgv]⟩
            | none =>
                cases hauth : p.author == pl.member_mention with
                | true =>
                    refine ⟨[⟨p, ProposalResult.CANCELLED_BY_PROPOSER,
                      env.now⟩], ?_⟩
                    simp only [on_raw_reaction_add, hval, Bool.not_true,
                      Bool.false_eq_true, if_false, hrec2, hp, hgv, hauth,
                      if_true]
                    simp [cancel_proposal_history, add_voter]
                | false =>
                    by_cases hth : p.threshold ≤
                        (rel_voters (add_voter s p pl.user_id) p).length
                    · refine ⟨[⟨p,
                        ProposalResult.CANCELLED_BY_REACHING_THRESHOLD,
                        env.now⟩], ?_⟩
                      simp only [on_raw_reaction_add, hval, Bool.not_true,
                        Bool.false_eq_true, if_false, hrec2, hp, hgv,
                        hauth, hth, if_true]
                      simp [cancel_proposal_history, add_voter]
                    · refine ⟨[], ?_⟩
                      simp only [on_raw_reaction_add, hval, Bool.not_true,
                        Bool.false_eq_true, if_false, hrec2, hp, hgv,
                        hauth, hth, if_true]
                      simp [add_voter]

lemma history_mono_remove (env : Env) (cfg : Config) (s : BotState)
    (pl : Payload) :
    (on_raw_reaction_remove env cfg s pl).1.history = s.history := by
  unfold on_raw_reaction_remove
  repeat' split <;> simp [remove_voter]

lemma history_mono_grant (env : Env) (cfg : Config) (s : BotState)
    (m : Nat) :
    ∃ t, (grant env cfg s m).1.history = s.history ++ t := by
  cases hp : get_proposal s m with
  | none => exact ⟨[], by simp [grant, hp]⟩
  | some p =>
      by_cases hg : (!p.is_grantless && !env.grant_send_ok) = true
      · exact ⟨[], by simp [grant, hp, hg]⟩
      · by_cases hex : proposal_exists
            (add_proposals_history_item env s p ProposalResult.ACCEPTED) m
            = true
        · refine ⟨[⟨p, ProposalResult.ACCEPTED, env.now⟩], ?_⟩
          simp only [grant, hp, hg, Bool.false_eq_true, if_false, hex,
            if_true]
          simp [remove_proposal_history, add_proposals_history_item]
        · refine ⟨[⟨p, ProposalResult.ACCEPTED, env.now⟩], ?_⟩
          simp only [grant, hp, hg, Bool.false_eq_true, if_false, hex,
            if_true]
          simp [add_proposals_history_item]

/-- **C8.** Archiving a proposal appends exactly one history row whose
result matches the transition's outcome (vote.py:192 / modelled store
write) and the proposal delete cascades deletion of all its voter rows
(bot/config/schemas.py:50); afterwards no operation of the core mutates or
deletes existing history rows — every operation's resulting history extends
the previous one on the right. -/
theorem C8_archive_cascade_and_immutable_history
    (env : Env) (cfg : Config) (s : BotState) (p : Proposal)
    (reason : ProposalResult)
    (hp : get_proposal s p.voting_message_id = some p) :
    (cancel_proposal env cfg s p reason).1.history =
      s.history ++ [⟨p, reason, env.now⟩] ∧
    rel_voters (cancel_proposal env cfg s p reason).1 p = [] ∧
    proposal_exists (cancel_proposal env cfg s p reason).1
      p.voting_message_id = false ∧
    (∀ pl, ∃ t,
      (on_raw_reaction_add env cfg s pl).1.history = s.history ++ t) ∧
    (∀ pl, (on_raw_reaction_remove env cfg s pl).1.history = s.history) ∧
    (∀ m, ∃ t, (grant env cfg s m).1.history = s.history ++ t) := by
  refine ⟨cancel_proposal_history env cfg s p reason, ?_, ?_,
    history_mono_add env cfg s, history_mono_remove env cfg s,
    history_mono_grant env cfg s⟩
  · rw [cancel_proposal_state]
    have h1 : get_proposal (add_proposals_history_item env s p reason)
        p.voting_message_id = some p := hp
    unfold remove_proposal
    rw [h1]
    simp [rel_voters, add_proposals_history_item, List.filter_filter]
  · rw [cancel_proposal_state]
    exact proposal_exists_remove _ _

/-- Witness for C8: cancelling the threshold-2 proposal with voters 4 and 7
creates exactly the one matching history row, leaves no voter row of the
proposal, and removes it from the index. -/
theorem C8_witness :
    (cancel_proposal env0 cfg0 (mk_state 2 [4, 7]) (prop0 2)
        ProposalResult.CANCELLED_BY_REACHING_THRESHOLD).1.history =
      [] ++ [⟨prop0 2, ProposalResult.CANCELLED_BY_REACHING_THRESHOLD,
        env0.now⟩] ∧
    rel_voters (cancel_proposal env0 cfg0 (mk_state 2 [4, 7]) (prop0 2)
        ProposalResult.CANCELLED_BY_REACHING_THRESHOLD).1 (prop0 2) = [] ∧
    proposal_exists (cancel_proposal env0 cfg0 (mk_state 2 [4, 7]) (prop0 2)
        ProposalResult.CANCELLED_BY_REACHING_THRESHOLD).1 50 = false := by
  have h := C8_archive_cascade_and_immutable_history env0 cfg0
    (mk_state 2 [4, 7]) (prop0 2)
    ProposalResult.CANCELLED_BY_REACHING_THRESHOLD (by decide)
  exact ⟨h.1, h.2.1, h.2.2.1⟩

lemma valid_mk (t : Nat) (vs : List Nat) (u : Nat) :
    is_valid_voting_reaction env0 cfg0 (mk_state t vs) (vote_payload u) =
      (true, []) := rfl

lemma get_proposal_mk (t : Nat) (vs : List Nat) :
    get_proposal (mk_state t vs) 50 = some (prop0 t) := rfl

lemma get_voter_mk_isSome (t : Nat) (vs : List Nat) (u : Nat) :
    (get_voter (mk_state t vs) u 50).isSome = vs.contains u := by
  induction vs with
  | nil => rfl
  | cons w ws ih =>
      by_cases hw : w = u
      · subst hw
        simp [get_voter, mk_state, List.find?_cons]
      · simp only [get_voter, mk_state, List.map_cons, List.find?_cons] at ih ⊢
        have hpred : ((⟨w, 50, 1⟩ : Voter).user_id == u &&
            (⟨w, 50, 1⟩ : Voter).voting_message_id == 50) = false := by
          simp [hw]
        rw [hpred]
        simp only [List.contains_cons]
        have : (u == w) = false := by simp [Ne.symm hw]
        rw [this]
        simpa using ih





lemma rel_voters_mk (t : Nat) (vs : List Nat) :
    rel_voters (mk_state t vs) (prop0 t) = (mk_state t vs).voters := by
  rw [rel_voters, List.filter_eq_self]
  intro v hv
  simp only [mk_state, List.mem_map] at hv
  obtain ⟨w, hw, rfl⟩ := hv
  rfl

lemma vote_payload_user (u : Nat) : (vote_payload u).user_id = u := rfl

lemma vote_payload_msg (u : Nat) : (vote_payload u).message_id = 50 := rfl

lemma vote_payload_mention (u : Nat) :
    (vote_payload u).member_mention = mention_of u := rfl

lemma mk_state_recovery (t : Nat) (vs : List Nat) :
    (mk_state t vs).recovery = false := rfl

lemma step_dup (t : Nat) (vs : List Nat) (u : Nat)
    (hu : vs.contains u = true) :
    (on_raw_reaction_add env0 cfg0 (mk_state t vs) (vote_payload u)).1 =
      mk_state t vs := by
  have hs := get_voter_mk_isSome t vs u
  rw [hu] at hs
  obtain ⟨v, hv⟩ := Option.isSome_iff_exists.mp hs
  simp only [on_raw_reaction_add, valid_mk, Bool.not_true,
    Bool.false_eq_true, if_false, mk_state_recovery, vote_payload_user,
    vote_payload_msg, get_proposal_mk, hv]

lemma step_new (t : Nat) (vs : List Nat) (u : Nat)
    (hu : vs.contains u = false)
    (ha : mention_of u ≠ "A")
    (hth : vs.length + 1 < t) :
    (on_raw_reaction_add env0 cfg0 (mk_state t vs) (vote_payload u)).1 =
      mk_state t (vs ++ [u]) := by
  have hs := get_voter_mk_isSome t vs u
  rw [hu] at hs
  have hnone : get_voter (mk_state t vs) u 50 = none := by
    cases h : get_voter (mk_state t vs) u 50 with
    | none => rfl
    | some v => rw [h] at hs; simp at hs
  have hbeq : ((prop0 t).author == (vote_payload u).member_mention)
      = false := by
    simpa [prop0, vote_payload_mention] using (Ne.symm ha)
  have hcnt : (rel_voters (add_voter (mk_state t vs) (prop0 t) u)
      (prop0 t)).length = vs.length + 1 := by
    rw [rel_voters_add_voter, rel_voters_mk]
    simp [mk_state]
  have hth2 : ¬ (prop0 t).threshold ≤
      (rel_voters (add_voter (mk_state t vs) (prop0 t) u)
        (prop0 t)).length := by
    rw [hcnt]
    show ¬ t ≤ vs.length + 1
    omega
  simp only [on_raw_reaction_add, valid_mk, Bool.not_true,
    Bool.false_eq_true, if_false, mk_state_recovery, vote_payload_user,
    vote_payload_msg, get_proposal_mk, hnone, hbeq, hth2, if_true]
  simp [add_voter, mk_state, prop0]





lemma run_votes_mk (t : Nat) : ∀ (us vs : List Nat),
    vs.Nodup →
    (∀ u ∈ us, mention_of u ≠ "A") →
    (vs.toFinset ∪ us.toFinset).card < t →
    run_votes env0 cfg0 (mk_state t vs) (us.map vote_payload) =
      mk_state t (us.foldl ins_voter vs) ∧
    (us.foldl ins_voter vs).Nodup ∧
    (us.foldl ins_voter vs).toFinset = vs.toFinset ∪ us.toFinset := by
  intro us
  induction us with
  | nil =>
      intro vs hnd _ _
      exact ⟨rfl, hnd, by simp⟩
  | cons u us ih =>
      intro vs hnd hA hcard
      have hA2 : ∀ v ∈ us, mention_of v ≠ "A" :=
        fun v hv => hA v (List.mem_cons_of_mem _ hv)
      by_cases hu : vs.contains u = true
      · have hmem : u ∈ vs := by simpa using hu
        have hu' : u ∈ vs.toFinset := List.mem_toFinset.mpr hmem
        have hset : vs.toFinset ∪ (u :: us).toFinset =
            vs.toFinset ∪ us.toFinset := by
          rw [List.toFinset_cons, Finset.union_insert,
            Finset.insert_eq_self.mpr (Finset.mem_union_left _ hu')]
        have hins : ins_voter vs u = vs := by simp [ins_voter, hmem]
        obtain ⟨h1, h2, h3⟩ := ih vs hnd hA2 (by rw [← hset]; exact hcard)
        refine ⟨?_, ?_, ?_⟩
        · simp only [List.map_cons, run_votes, List.foldl_cons,
            step_dup t vs u hu, hins]
          exact h1
        · simpa [hins] using h2
        · rw [List.foldl_cons, hins, h3, hset]
      · have hu2 : vs.contains u = false := by simpa using hu
        have hmem : u ∉ vs := by simpa using hu
        have hnd2 : (vs ++ [u]).Nodup := by
          simp [List.nodup_append, hnd, hmem]
        have hcins : (insert u vs.toFinset).card = vs.length + 1 := by
          rw [Finset.card_insert_of_not_mem (by simpa using hmem),
            List.toFinset_card_of_nodup hnd]
        have hsub : insert u vs.toFinset ⊆
            vs.toFinset ∪ (u :: us).toFinset := by
          intro a ha
          simp only [Finset.mem_insert, List.mem_toFinset] at ha
          simp only [Finset.mem_union, List.mem_toFinset, List.mem_cons]
          tauto
        have hlt : vs.length + 1 < t :=
          lt_of_le_of_lt (hcins ▸ Finset.card_le_card hsub) hcard
        have hset : (vs ++ [u]).toFinset ∪ us.toFinset =
            vs.toFinset ∪ (u :: us).toFinset := by
          ext a
          simp only [Finset.mem_union, List.mem_toFinset, List.mem_append,
            List.mem_cons, List.mem_singleton]
          tauto
        have hins : ins_voter vs u = vs ++ [u] := by simp [ins_voter, hmem]
        obtain ⟨h1, h2, h3⟩ := ih (vs ++ [u]) hnd2 hA2
          (by rw [hset]; exact hcard)
        refine ⟨?_, ?_, ?_⟩
        · simp only [List.map_cons, run_votes, List.foldl_cons,
            step_new t vs u hu2 (hA u (List.mem_cons_self u us)) hlt, hins]
          exact h1
        · simpa [hins] using h2
        · rw [List.foldl_cons, hins, h3, hset]





/-- **C3 counterexample.** The claim's store-schema conjunct fails: the
`Voters` table of bot/config/schemas.py:60-74 declares only a primary key
on `id` and the foreign key to `proposals.id`, so the table instance
`dup_voter_rows` — two rows with distinct ids but the same
(`user_id`, `grant_proposal_id`) pair — satisfies every declared
constraint while duplicating the pair: the schema does not enforce
uniqueness of (user_ref, proposal_id). -/
theorem C3_counterexample :
    voters_table_ok [1] dup_voter_rows ∧
      ¬ voter_pairs_unique dup_voter_rows := by decide

/-- **C3 (amended).** A vote-add by a user who already has a Voter row for
the proposal creates no second row and changes no state — the handler
returns before `add_voter` (vote.py:253-266) — so over any sequence of
vote-add events on one proposal (that stays below the threshold and never
includes the author) the final voter count equals the number of distinct
voter references submitted; uniqueness of (user_ref, proposal_id) is
enforced only by this handler-level check, not by the store schema, which
declares no unique constraint on the pair. -/
theorem C3_amended :
    (∀ (env : Env) (cfg : Config) (s : BotState) (pl : Payload)
        (p : Proposal) (v : Voter),
      (is_valid_voting_reaction env cfg s pl).1 = true →
      s.recovery = false →
      get_proposal s pl.message_id = some p →
      get_voter s pl.user_id pl.message_id = some v →
      on_raw_reaction_add env cfg s pl =
        (s, (is_valid_voting_reaction env cfg s pl).2,
          AddOutcome.duplicateVote)) ∧
    (∀ (t : Nat) (us : List Nat),
      (∀ u ∈ us, mention_of u ≠ "A") →
      us.toFinset.card < t →
      (run_votes env0 cfg0 (mk_state t [])
        (us.map vote_payload)).voters.length = us.toFinset.card) := by
  constructor
  · intro env cfg s pl p v hv hr hp hgv
    simp [on_raw_reaction_add, hv, hr, hp, hgv]
  · intro t us hA hcard
    obtain ⟨h1, h2, h3⟩ := run_votes_mk t us [] (by simp) hA
      (by simpa using hcard)
    rw [h1]
    simp only [mk_state, List.length_map]
    rw [← List.toFinset_card_of_nodup h2, h3]
    simp

/-- Witness for the amended C3: user 2's second vote is a no-op on a state
already recording it, and the sequence 2, 3, 2, 4 yields exactly 3 voters
(the duplicate is not counted). -/
theorem C3_witness :
    on_raw_reaction_add env0 cfg0 (mk_state 3 [2]) (vote_payload 2) =
      (mk_state 3 [2],
        (is_valid_voting_reaction env0 cfg0 (mk_state 3 [2])
          (vote_payload 2)).2,
        AddOutcome.duplicateVote) ∧
    (run_votes env0 cfg0 (mk_state 5 [])
        ([2, 3, 2, 4].map vote_payload)).voters.length =
      ([2, 3, 2, 4] : List Nat).toFinset.card :=
  ⟨C3_amended.1 env0 cfg0 (mk_state 3 [2]) (vote_payload 2) (prop0 3)
      ⟨2, 50, 1⟩ (by decide) (by decide) (by decide) (by decide),
    C3_amended.2 5 [2, 3, 2, 4] (by decide) (by decide)⟩

/-- **C9 counterexample.** vote.py serializes nothing per proposal key: in
the interleaved execution replayed by `c9_state0` … `c9_state4` (see their
doc comments for the schedule, which uses only the awaits present in
vote.py), two simultaneous vote-adds — each observing count =
threshold − 1 = 1 at entry — both validate, both insert their voter, both
pass the threshold check, and both run `cancel_proposal`: the result is
two CANCELLED_BY_REACHING_THRESHOLD history rows, not exactly one
cancellation. -/
theorem C9_counterexample :
    (is_valid_voting_reaction env0 cfg0 c9_state0 (vote_payload 2)).1 =
      true ∧
    get_voter c9_state0 2 50 = none ∧
    (is_valid_voting_reaction env0 cfg0 c9_state1 (vote_payload 3)).1 =
      true ∧
    get_voter c9_state1 3 50 = none ∧
    (rel_voters c9_state0 (prop0 2)).length = (prop0 2).threshold - 1 ∧
    (prop0 2).threshold ≤ (rel_voters c9_state1 (prop0 2)).length ∧
    (prop0 2).threshold ≤ (rel_voters c9_state2 (prop0 2)).length ∧
    proposal_exists c9_state3 50 = false ∧
    (c9_state4.history.filter (fun h =>
      h.result == ProposalResult.CANCELLED_BY_REACHING_THRESHOLD)).length
      = 2 := by decide

/-- **C9 (amended).** The handlers hold no per-key lock, so the interleaved
execution of `C9_counterexample` archives the same proposal twice; only
when the two simultaneous vote-adds happen to run without interleaving
does exactly one cancellation result — the first call reaching the
threshold archives the proposal and the second call is rejected by the
validity check as no longer referring to a live proposal. -/
theorem C9_no_lock_sequential_single_cancel :
    (on_raw_reaction_add env0 cfg0 c9_state0 (vote_payload 2)).2.2 =
      AddOutcome.cancelledByThreshold ∧
    (on_raw_reaction_add env0 cfg0
        (on_raw_reaction_add env0 cfg0 c9_state0 (vote_payload 2)).1
        (vote_payload 3)).2.2 = AddOutcome.notVoting ∧
    (on_raw_reaction_add env0 cfg0
        (on_raw_reaction_add env0 cfg0 c9_state0 (vote_payload 2)).1
        (vote_payload 3)).1 =
      (on_raw_reaction_add env0 cfg0 c9_state0 (vote_payload 2)).1 ∧
    ((on_raw_reaction_add env0 cfg0
        (on_raw_reaction_add env0 cfg0 c9_state0 (vote_payload 2)).1
        (vote_payload 3)).1.history.filter (fun h =>
      h.result == ProposalResult.CANCELLED_BY_REACHING_THRESHOLD)).length
      = 1 := by decide

/-- **C4 counterexample.** The history insert and the proposal delete of a
terminal transition are two sequential store calls, not one atomic unit:
in the interleaved execution replayed by `c4_state1`/`c4_state2` (grant
suspended at grant.py:29 while a vote-add cancels the threshold-1
proposal), grant's entry lookup had succeeded, its delete step then fails
(the proposal is gone), yet its history insert (grant.py:137) was
performed and remains — grant.py:145-149 catches the failure and keeps the
row, so a transition with a failed step leaves a created history row,
contrary to the claim. -/
theorem C4_counterexample :
    get_proposal (mk_state 1 []) 50 = some (prop0 1) ∧
    (on_raw_reaction_add env0 cfg0 (mk_state 1 []) (vote_payload 2)).2.2 =
      AddOutcome.cancelledByThreshold ∧
    proposal_exists c4_state1 50 = false ∧
    c4_state2.history =
      [⟨prop0 1, ProposalResult.CANCELLED_BY_REACHING_THRESHOLD, 1000⟩,
       ⟨prop0 1, ProposalResult.ACCEPTED, 1000⟩] ∧
    proposal_exists c4_state2 50 = false := by decide

/-- **C4 (amended).** The terminal transition is fail-fast before its
history insert but not atomic across insert and delete: a missing proposal
or a failed grant-apply send aborts `grant` with the state unchanged and
no history row; on the sequential success path both the insert and the
delete happen; and when the delete fails after the insert (the proposal
was archived concurrently, as in `c4_state2`), the inserted history row is
kept — grant.py catches the delete failure and continues. -/
theorem C4_nonatomic_transition
    (env : Env) (cfg : Config) (s : BotState) (m : Nat) :
    ((grant env cfg s m).2.2 = GrantOutcome.notFound →
      (grant env cfg s m).1 = s) ∧
    ((grant env cfg s m).2.2 = GrantOutcome.grantSendFailed →
      (grant env cfg s m).1 = s) ∧
    (∀ p, get_proposal s m = some p →
      (grant env cfg s m).2.2 = GrantOutcome.granted →
      (grant env cfg s m).1.history =
        s.history ++ [⟨p, ProposalResult.ACCEPTED, env.now⟩] ∧
      proposal_exists (grant env cfg s m).1 m = false) ∧
    (c4_state2.history.length = 2 ∧ proposal_exists c4_state1 50 = false ∧
      c4_state2.history.map (fun h => h.result) =
        [ProposalResult.CANCELLED_BY_REACHING_THRESHOLD,
         ProposalResult.ACCEPTED]) := by
  refine ⟨?_, ?_, ?_, by decide⟩
  · intro h
    cases hp : get_proposal s m with
    | none => simp [grant, hp]
    | some p =>
        by_cases hg : (!p.is_grantless && !env.grant_send_ok) = true
        · rw [grant, hp] at h
          simp only [hg, if_true] at h
          exact absurd h (by simp)
        · rw [grant, hp] at h
          simp only [hg, Bool.false_eq_true, if_false] at h
          by_cases hex : proposal_exists
              (add_proposals_history_item env s p ProposalResult.ACCEPTED)
              m = true
          · simp only [hex, if_true] at h
            exact absurd h (by simp)
          · simp only [hex, if_false] at h
            exact absurd h (by simp)
  · intro h
    cases hp : get_proposal s m with
    | none =>
        rw [grant, hp] at h
        exact absurd h (by simp)
    | some p =>
        by_cases hg : (!p.is_grantless && !env.grant_send_ok) = true
        · simp [grant, hp, hg]
        · rw [grant, hp] at h
          simp only [hg, Bool.false_eq_true, if_false] at h
          by_cases hex : proposal_exists
              (add_proposals_history_item env s p ProposalResult.ACCEPTED)
              m = true
          · simp only [hex, if_true] at h
            exact absurd h (by simp)
          · simp only [hex, if_false] at h
            exact absurd h (by simp)
  · intro p hp h
    by_cases hg : (!p.is_grantless && !env.grant_send_ok) = true
    · rw [grant, hp] at h
      simp only [hg, if_true] at h
      exact absurd h (by simp)
    · have hex : proposal_exists
          (add_proposals_history_item env s p ProposalResult.ACCEPTED) m
          = true := by
        have : get_proposal
            (add_proposals_history_item env s p ProposalResult.ACCEPTED) m
            = some p := hp
        simp [proposal_exists, this]
      constructor
      · rw [grant, hp]
        simp only [hg, Bool.false_eq_true, if_false, hex, if_true]
        rw [remove_proposal_history]
        rfl
      · rw [grant, hp]
        simp only [hg, Bool.false_eq_true, if_false, hex, if_true]
        exact proposal_exists_remove _ _

/-- Witness for the amended C4: a grant on an archived key is a pure no-op;
a failed grant-apply send leaves the grant-carrying proposal untouched
with no history row; a sequential successful grant both inserts the
ACCEPTED history row and deletes the proposal. -/
theorem C4_witness :
    (grant env0 cfg0 archived_state 50).1 = archived_state ∧
    (grant env_fail cfg0 gstate 50).1 = gstate ∧
    (grant env0 cfg0 (mk_state 2 []) 50).1.history =
      [] ++ [⟨prop0 2, ProposalResult.ACCEPTED, env0.now⟩] ∧
    proposal_exists (grant env0 cfg0 (mk_state 2 []) 50).1 50 = false := by
  have h1 := (C4_nonatomic_transition env0 cfg0 archived_state 50).1
    (by decide)
  have h2 := (C4_nonatomic_transition env_fail cfg0 gstate 50).2.1
    (by decide)
  have h3 := (C4_nonatomic_transition env0 cfg0 (mk_state 2 []) 50).2.2.1
    (prop0 2) (by decide) (by decide)
  exact ⟨h1, h2, h3.1, h3.2⟩

/-- **C10 counterexample.** An invalid reaction outside the heart list can
still trigger actions: the cancel emoji added by an eligible member to the
original proposer message of a live proposal is rejected by the
voting-channel check of vote.py:74, yet on the way the helper branch of
vote.py:55-71 removes the reaction (channel 5 is helper-managed) and DMs
the member a link to the voting message — refuting "no other invalid
reaction triggers any action". -/
theorem C10_counterexample :
    (is_valid_voting_reaction env0 cfg0 (mk_state 3 []) wrong_payload).1 =
      false ∧
    cfg0.heart_emojis.contains wrong_payload.emoji_name = false ∧
    (on_raw_reaction_add env0 cfg0 (mk_state 3 []) wrong_payload).2.1 =
      [Eff.removeReaction 5 10 9 "x",
       Eff.sendDM 9 (Msg.votedIncorrectly 50)] ∧
    (on_raw_reaction_add env0 cfg0 (mk_state 3 []) wrong_payload).1 =
      mk_state 3 [] := by decide

/-- **C10 (amended).** Every invalid reaction leaves the state unmutated
(no proposal, voter or history change); when its emoji is in the heart
list the handler adds the same emoji back (vote.py:220-225); otherwise the
only effects are those the validity check itself performed (the helper
actions of vote.py:55-71 for a cancel-emoji reaction on the original
proposer message, as exhibited by the C10 counterexample). -/
theorem C10_invalid_reaction_behaviour
    (env : Env) (cfg : Config) (s : BotState) (pl : Payload)
    (hval : (is_valid_voting_reaction env cfg s pl).1 = false) :
    (on_raw_reaction_add env cfg s pl).1 = s ∧
    (on_raw_reaction_add env cfg s pl).2.2 = AddOutcome.notVoting ∧
    (cfg.heart_emojis.contains pl.emoji_name = true →
      (on_raw_reaction_add env cfg s pl).2.1 =
        (is_valid_voting_reaction env cfg s pl).2 ++
          [Eff.addReaction pl.channel_id pl.message_id pl.emoji_name]) ∧
    (cfg.heart_emojis.contains pl.emoji_name = false →
      (on_raw_reaction_add env cfg s pl).2.1 =
        (is_valid_voting_reaction env cfg s pl).2) := by
  by_cases hh : cfg.heart_emojis.contains pl.emoji_name = true
  · have hm : pl.emoji_name ∈ cfg.heart_emojis := by simpa using hh
    refine ⟨?_, ?_, fun _ => ?_, fun hc => by
      simp at hc
      exact absurd hm hc⟩ <;>
      simp [on_raw_reaction_add, hval, hm]
  · have hh2 : cfg.heart_emojis.contains pl.emoji_name = false := by
      simpa using hh
    have hm2 : pl.emoji_name ∉ cfg.heart_emojis := by simpa using hh
    refine ⟨?_, ?_, fun hc => by
      simp at hc
      exact absurd hc hm2, fun _ => ?_⟩ <;>
      simp [on_raw_reaction_add, hval, hm2]

/-- Witness for the amended C10: a heart reaction on the voting message is
doubled and mutates nothing. -/
theorem C10_witness :
    (on_raw_reaction_add env0 cfg0 (mk_state 3 []) heart_payload).1 =
      mk_state 3 [] ∧
    (on_raw_reaction_add env0 cfg0 (mk_state 3 []) heart_payload).2.1 =
      (is_valid_voting_reaction env0 cfg0 (mk_state 3 []) heart_payload).2
        ++ [Eff.addReaction 100 50 "h1"] := by
  have h := C10_invalid_reaction_behaviour env0 cfg0 (mk_state 3 [])
    heart_payload (by decide)
  exact ⟨h.1, h.2.2.1 (by decide)⟩

end LazyConsensus
